import Mathlib

set_option maxRecDepth 100000

/-!
# Verification of the tusslehustle combat engine

A shallow embedding of the combat engine (src/characters.rs, src/combat.rs,
src/mov.rs, src/effects.rs, src/equipment.rs) together with theorems that
settle the frozen claims about it.

Rust `i64` arithmetic is modelled with `Int` (no claim exercises wrap-around).
Rust `f64` arithmetic is modelled exactly by the soft-float kit `F64` below:
an IEEE-754 binary64 value is a dyadic rational `m * 2^e` with a 53-bit
mantissa, and every operation rounds its exact rational result to the nearest
such value (ties to even).  Overflow and subnormals are not modelled; all
numbers appearing in this development stay far inside the normal range.
-/

namespace Tussle

/-- Bit length of a natural number (`bitlen f n` is the number of binary
digits of `n`, correct whenever `n < 2 ^ f`).  The explicit fuel keeps the
recursion structural so that the kernel can evaluate it. -/
def bitlen : Nat → Nat → Nat
  | 0, _ => 0
  | f + 1, n => if n = 0 then 0 else bitlen f (n / 2) + 1

/-- An IEEE-754 binary64 value, written `m * 2^e`.  Values produced by
`F64.norm` have `|m|` either `0` or in `[2^52, 2^53)`, mirroring the
normalised mantissa of a double. -/
structure F64 where
  m : Int
  e : Int
deriving DecidableEq

/-- Round the exact dyadic rational `m * 2^e` to the nearest binary64 value
(53 significant bits, ties to even).  This is the rounding step every
IEEE-754 operation performs on its exact result. -/
def F64.norm (m : Int) (e : Int) : F64 :=
  if m = 0 then ⟨0, 0⟩ else
  let n := m.natAbs
  let l := bitlen 4000 n
  if l ≤ 53 then
    -- Fewer than 54 significant bits: the value is exactly representable.
    ⟨m * ((2 ^ (53 - l) : Nat) : Int), e - (53 - l)⟩
  else
    -- Drop `s` low bits, rounding to nearest, ties to even.
    let s := l - 53
    let q := n / 2 ^ s
    let r := n % 2 ^ s
    let half := 2 ^ (s - 1)
    let q1 := if r < half then q else if half < r then q + 1
      else if q % 2 = 0 then q else q + 1
    let q2 := if q1 = 2 ^ 53 then 2 ^ 52 else q1
    let e2 := if q1 = 2 ^ 53 then e + s + 1 else e + s
    ⟨if m < 0 then -(q2 : Int) else (q2 : Int), e2⟩

/-- The binary64 value of an `i64` (`x as f64`): exact up to 53 bits,
rounded beyond. -/
def F64.ofInt (n : Int) : F64 := F64.norm n 0

/-- Exact product, then IEEE rounding: binary64 multiplication. -/
def F64.mul (a b : F64) : F64 := F64.norm (a.m * b.m) (a.e + b.e)

/-- Exact difference, then IEEE rounding: binary64 subtraction. -/
def F64.sub (a b : F64) : F64 :=
  let e := min a.e b.e
  F64.norm (a.m * (2 : Int) ^ (a.e - e).toNat - b.m * (2 : Int) ^ (b.e - e).toNat) e

/-- Binary64 comparison `a < b` (comparison of the exact values). -/
def F64.blt (a b : F64) : Bool :=
  let e := min a.e b.e
  decide (a.m * (2 : Int) ^ (a.e - e).toNat < b.m * (2 : Int) ^ (b.e - e).toNat)

/-- Binary64 comparison `a == b` (comparison of the exact values). -/
def F64.beq (a b : F64) : Bool :=
  let e := min a.e b.e
  decide (a.m * (2 : Int) ^ (a.e - e).toNat = b.m * (2 : Int) ^ (b.e - e).toNat)

/-- The Rust cast `x as i64` on a binary64 value: truncation toward zero
(`Int.div` is the truncating division). -/
def F64.truncToInt (f : F64) : Int :=
  if 0 ≤ f.e then f.m * (2 : Int) ^ f.e.toNat
  else Int.tdiv f.m ((2 : Int) ^ (-f.e).toNat)

/-- The Rust sequence `x.floor() as i64`: floor (`Int.fdiv` is the flooring
division). -/
def F64.floorToInt (f : F64) : Int :=
  if 0 ≤ f.e then f.m * (2 : Int) ^ f.e.toNat
  else Int.fdiv f.m ((2 : Int) ^ (-f.e).toNat)

/-- The exact rational value of a binary64 number. -/
def F64.toRat (f : F64) : ℚ := (f.m : ℚ) * (2 : ℚ) ^ f.e

/-- The binary64 value of the literal `0.7`: `6305039478318694 * 2^-53`
(just below 7/10). -/
def f64_0_7 : F64 := ⟨6305039478318694, -53⟩

/-- The binary64 value of the literal `0.3`: `5404319552844595 * 2^-54`
(just below 3/10). -/
def f64_0_3 : F64 := ⟨5404319552844595, -54⟩

/-- The binary64 value of the literal `0.2`: `3602879701896397 * 2^-54`
(just above 1/5). -/
def f64_0_2 : F64 := ⟨3602879701896397, -54⟩

/-- The binary64 value of the literal `0.05`: `3602879701896397 * 2^-56`
(just above 1/20). -/
def f64_0_05 : F64 := ⟨3602879701896397, -56⟩

/-- The binary64 value of the literal `1.2`: `5404319552844595 * 2^-52`
(just below 6/5). -/
def f64_1_2 : F64 := ⟨5404319552844595, -52⟩

/-- The binary64 value of the literal `0.6`: `5404319552844595 * 2^-53`
(just below 3/5). -/
def f64_0_6 : F64 := ⟨5404319552844595, -53⟩

/-- The binary64 value of the literal `0.33`: `5944751508129055 * 2^-54`
(just above 33/100). -/
def f64_0_33 : F64 := ⟨5944751508129055, -54⟩

/-- The binary64 value of the literal `0.5` (exact). -/
def f64_half : F64 := ⟨4503599627370496, -53⟩

/-- The binary64 value of the literal `1` (exact). -/
def f64_one : F64 := ⟨4503599627370496, -52⟩

/-!
## Stats and derived game stats (src/characters.rs)
-/

/-- Fundamental stats of a game entity (`struct Stats`, src/characters.rs). -/
structure Stats where
  dex : Int
  str : Int
  grt : Int
  wil : Int
  cha : Int
  int : Int
deriving DecidableEq

/-- Derived game stats (`struct GameStats`, src/characters.rs). -/
structure GameStats where
  mhp : Int
  mmp : Int
  map : Int
  mve : Int
  pdf : Int
  mdf : Int
  mob : Int
  hrg : Int
  mrg : Int
  tap : Int
deriving DecidableEq

/-- `Stats::max_hp`: `100 + stat_factor * 12`. -/
def Stats.max_hp (s : Stats) : Int :=
  let stat_factor := (s.grt + s.wil) * 2 + s.str + s.cha
  100 + stat_factor * 12

/-- `Stats::max_mp`: `stat_factor * 2`. -/
def Stats.max_mp (s : Stats) : Int :=
  let stat_factor := (s.int + s.cha) * 2 + s.wil + s.dex
  stat_factor * 2

/-- `Stats::max_ap`: `(stat_factor as f64 * 0.2f64) as i64` — an f64 product
followed by the truncating cast. -/
def Stats.max_ap (s : Stats) : Int :=
  let stat_factor := (s.dex + s.int + s.wil) * 2 + s.grt
  (F64.mul (F64.ofInt stat_factor) f64_0_2).truncToInt

/-- `Stats::action_points`: `1 + (stat_factor as f64 * 0.05).floor() as i64`. -/
def Stats.action_points (s : Stats) : Int :=
  let stat_factor := (s.dex + s.int) * 2 + s.grt + s.wil
  1 + (F64.mul (F64.ofInt stat_factor) f64_0_05).floorToInt

/-- `Stats::move_speed`: the stat factor is the constant `0`. -/
def Stats.move_speed (_s : Stats) : Int :=
  let stat_factor : Int := 0
  stat_factor * 5

/-- `Stats::phys_defense`: `(stat_factor as f64 * 1.2).floor() as i64`. -/
def Stats.phys_defense (s : Stats) : Int :=
  let stat_factor := s.grt + s.str
  (F64.mul (F64.ofInt stat_factor) f64_1_2).floorToInt

/-- `Stats::mag_defense`: `(stat_factor as f64 * 1.2).floor() as i64`. -/
def Stats.mag_defense (s : Stats) : Int :=
  let stat_factor := s.wil + s.cha
  (F64.mul (F64.ofInt stat_factor) f64_1_2).floorToInt

/-- `Stats::mobility`: `(stat_factor as f64 * 1.2).floor() as i64`. -/
def Stats.mobility (s : Stats) : Int :=
  let stat_factor := s.dex + s.int
  (F64.mul (F64.ofInt stat_factor) f64_1_2).floorToInt

/-- `Stats::health_regen`: `1 + (stat_factor as f64 * 0.60).floor() as i64`. -/
def Stats.health_regen (s : Stats) : Int :=
  let stat_factor := s.grt * 2 + s.wil + s.str
  1 + (F64.mul (F64.ofInt stat_factor) f64_0_6).floorToInt

/-- `Stats::magic_regen`: `1 + (stat_factor as f64 * 0.33).floor() as i64`. -/
def Stats.magic_regen (s : Stats) : Int :=
  let stat_factor := s.wil * 2 + s.cha + s.int
  1 + (F64.mul (F64.ofInt stat_factor) f64_0_33).floorToInt

/-- `Stats::max_vit`: `stat_factor * 15`. -/
def Stats.max_vit (s : Stats) : Int :=
  let stat_factor := s.grt * 4 + s.wil * 3 + s.str + s.cha
  stat_factor * 15

/-- `Stats::to_game_stats`. -/
def Stats.to_game_stats (s : Stats) : GameStats :=
  { mhp := s.max_hp
    mmp := s.max_mp
    tap := s.action_points
    mve := s.move_speed
    pdf := s.phys_defense
    mdf := s.mag_defense
    mob := s.mobility
    hrg := s.health_regen
    mrg := s.magic_regen
    map := s.max_ap }

/-- `Stats::meets_requirements`, exactly as written in the source: the six
comparisons are joined with `||` (although the doc comment of the Rust
function promises that all requirements are checked). -/
def Stats.meets_requirements (s req : Stats) : Bool :=
  decide (req.dex ≤ s.dex) || decide (req.str ≤ s.str) || decide (req.grt ≤ s.grt)
    || decide (req.wil ≤ s.wil) || decide (req.cha ≤ s.cha) || decide (req.int ≤ s.int)

/-!
## Spec-side formulas (from spec.md §4.1 and §4.2, in exact arithmetic)
-/

/-- Modelled from the spec: `maxHP = 100 + 12*((GRT+WIL)*2 + STR+CHA)`. -/
def spec_max_hp (s : Stats) : Int := 100 + 12 * ((s.grt + s.wil) * 2 + s.str + s.cha)

/-- Modelled from the spec: `maxMP = 2*((INT+CHA)*2 + WIL+DEX)`. -/
def spec_max_mp (s : Stats) : Int := 2 * ((s.int + s.cha) * 2 + s.wil + s.dex)

/-- Modelled from the spec: `maxAP = floor(0.2*((DEX+INT+WIL)*2 + GRT))`;
`floor (x / 5)` is the flooring division `Int.fdiv x 5`. -/
def spec_max_ap (s : Stats) : Int := Int.fdiv ((s.dex + s.int + s.wil) * 2 + s.grt) 5

/-- Modelled from the spec: `turnAP = 1 + floor(0.05*((DEX+INT)*2 + GRT+WIL))`. -/
def spec_turn_ap (s : Stats) : Int := 1 + Int.fdiv ((s.dex + s.int) * 2 + s.grt + s.wil) 20

/-- Modelled from the spec: the stat-requirement check the claim describes,
`the character's current stats meet every component of the item's
minimum-stat requirement vector`. -/
def spec_meets_requirements (s req : Stats) : Bool :=
  decide (req.dex ≤ s.dex) && decide (req.str ≤ s.str) && decide (req.grt ≤ s.grt)
    && decide (req.wil ≤ s.wil) && decide (req.cha ≤ s.cha) && decide (req.int ≤ s.int)

/-!
## Damage types (src/combat.rs), character units, effects (src/effects.rs)
-/

/-- `enum DamageType` (src/combat.rs): PHY/MAG/ZAP damage with a subtype
string, and ULT damage without one. -/
inductive DamageType where
  | PHY (subtype : String)
  | MAG (subtype : String)
  | ZAP (subtype : String)
  | ULT
deriving DecidableEq

/-- `matches!(d, DamageType::PHY(_))`. -/
def DamageType.isPHY : DamageType → Bool
  | .PHY _ => true
  | _ => false

/-- `matches!(d, DamageType::MAG(_))`. -/
def DamageType.isMAG : DamageType → Bool
  | .MAG _ => true
  | _ => false

/-- `matches!(d, DamageType::ZAP(_))`. -/
def DamageType.isZAP : DamageType → Bool
  | .ZAP _ => true
  | _ => false

/-- `matches!(d, DamageType::ULT)`. -/
def DamageType.isULT : DamageType → Bool
  | .ULT => true
  | _ => false

/-- `struct Damage(DamageType, i64)` (src/combat.rs). -/
structure Damage where
  dmg_type : DamageType
  amount : Int
deriving DecidableEq

/-- `enum CharUnit` (src/characters.rs): an amount of HP, MP, AP or VIT. -/
inductive CharUnit where
  | HP (v : Int)
  | MP (v : Int)
  | AP (v : Int)
  | VIT (v : Int)
deriving DecidableEq

/-- The `Effect` trait (src/effects.rs), modelled as a record of its methods
(`describe` and `process_turn` are omitted: the first is pure text, the body
of the second is empty in every implementation).  `cancel_self` takes only
`&self`, so it is a per-value constant.  The trait defaults are
`apply_to_stats = no-op`, `cancel_self = false`, `effect_order = 1`. -/
structure Effect where
  apply_to_stats : Stats → Stats := fun s => s
  cancel_self : Bool := false
  effect_order : Int := 1

/-- `enum StatChange` (src/effects.rs). -/
inductive StatChange where
  | DEX (v : Int)
  | STR (v : Int)
  | GRT (v : Int)
  | WIL (v : Int)
  | CHA (v : Int)
  | INT (v : Int)
  | MHP (v : Int)
  | MMP (v : Int)
  | TAP (v : Int)
  | MVE (v : Int)
  | PDF (v : Int)
  | MDF (v : Int)
  | MOB (v : Int)
  | HRG (v : Int)
  | MRG (v : Int)
deriving DecidableEq

/-- `StatChange::apply_to_stats`: add the delta to the matching base stat;
the game-stat variants fall through to the wildcard arm and do nothing. -/
def StatChange.apply_to_stats (sc : StatChange) (stats : Stats) : Stats :=
  match sc with
  | .STR d => { stats with str := stats.str + d }
  | .DEX d => { stats with dex := stats.dex + d }
  | .GRT d => { stats with grt := stats.grt + d }
  | .WIL d => { stats with wil := stats.wil + d }
  | .CHA d => { stats with cha := stats.cha + d }
  | .INT d => { stats with int := stats.int + d }
  | _ => stats

/-- The `Effect` value of a `StatChange` (`impl Effect for StatChange`
overrides only `apply_to_stats`). -/
def StatChange.toEffect (sc : StatChange) : Effect :=
  { apply_to_stats := sc.apply_to_stats }

/-- The `Effect` value of a `DamageResistance` (src/effects.rs): it overrides
only `effect_order` (to 10); its stat application and cancel predicate are
the trait defaults. -/
def DamageResistance.toEffect : Effect :=
  { effect_order := 10 }

/-!
## Equipment (src/equipment.rs)
-/

/-- `enum EquipmentType`. -/
inductive EquipmentType where
  | Weapon
  | Head
  | Chest
  | Arms
  | Hands
  | Feet
  | Ring
  | Accessory
deriving DecidableEq, BEq

/-- `EquipmentType::equipment_max`. -/
def EquipmentType.equipment_max : EquipmentType → Nat
  | .Head => 1
  | .Chest => 1
  | .Arms => 2
  | .Hands => 2
  | .Feet => 2
  | .Ring => 4
  | .Weapon => 2
  | .Accessory => 2

/-- `EquipmentType::shortcode`. -/
def EquipmentType.shortcode : EquipmentType → String
  | .Head => "HEAD"
  | .Chest => "CHST"
  | .Arms => "ARMS"
  | .Hands => "HNDS"
  | .Feet => "FEET"
  | .Ring => "RING"
  | .Weapon => "WPON"
  | .Accessory => "ACCS"

/-- `struct Counter` (src/mov.rs): a damage-type filter and the two f64
factors.  Its behaviour (`relevant_for`, `mp_cost`, `react`) is defined
below, after `Character`. -/
structure Counter where
  damage_type : DamageType
  incoming_factor : F64
  outgoing_factor : F64
deriving DecidableEq

/-- `struct Equipment` (src/equipment.rs).  The `moves` list is omitted: no
claim depends on maneuvers granted by equipment.  The `reactions` list holds
the one `Reaction` implementation of the source, `Counter`. -/
structure Equipment where
  name : String
  eq_type : EquipmentType
  stat_requirements : Stats
  passive_effects : List Effect := []
  reactions : List Counter := []

/-!
## Character (src/characters.rs)
-/

/-- `struct Character` (src/characters.rs).  `mp` and `ap` live in `RefCell`s
in the source (interior mutability); state passing models the mutation.
`game_stats` is the never-written cache field. -/
structure Character where
  name : String
  owner : Option String := none
  party : String
  base_stats : Stats
  equipment : List Equipment := []
  timed_effects : List (Effect × Int) := []
  hp : Int
  mp : Int
  ap : Int
  vit : Int
  game_stats : Option GameStats := none

/-- `Character::new`: resources start at the base-stat maxima, the party is
the `<no party>` placeholder, equipment and effects are empty. -/
def Character.new (name : String) (owner : Option String) (base_stats : Stats) : Character :=
  { name := name
    owner := owner
    party := "<no party>"
    base_stats := base_stats
    equipment := []
    timed_effects := []
    hp := base_stats.max_hp
    mp := base_stats.max_mp
    ap := base_stats.max_ap
    vit := base_stats.max_vit
    game_stats := none }

/-- `Character::all_current_effects`: the timed effects followed by every
equipment's passive effects (the sort by `effect_order` is commented out in
the source and therefore not performed). -/
def Character.all_current_effects (c : Character) : List Effect :=
  c.timed_effects.map Prod.fst
    ++ (c.equipment.map Equipment.passive_effects).flatten

/-- `Character::calculate_current_stats`: copy the base stats and forward
them through every active effect. -/
def Character.calculate_current_stats (c : Character) : Stats :=
  c.all_current_effects.foldl (fun stats e => e.apply_to_stats stats) c.base_stats

/-- `Character::calculate_game_stats` (the loop over effects in the source
has an empty body). -/
def Character.calculate_game_stats (c : Character) : GameStats :=
  c.calculate_current_stats.to_game_stats

/-- `EquipmentType::can_equip`: the character may hold another item of this
type iff the count of equipped items of the type is below `equipment_max`. -/
def EquipmentType.can_equip (t : EquipmentType) (c : Character) : Bool :=
  decide ((c.equipment.filter (fun e => e.eq_type == t)).length < t.equipment_max)

/-- `Character::equip` (src/characters.rs): three checks — hard cap of 3
items, `meets_requirements` on the current stats, per-type cap — and only
then is the item appended.  The successful updated character (the mutated
`&mut self`) is returned in `Except.ok`. -/
def Character.equip (c : Character) (equipment : Equipment) : Except String Character :=
  if 3 ≤ c.equipment.length then
    Except.error "Cannot equip more than 3 items."
  else if ¬ (c.calculate_current_stats.meets_requirements equipment.stat_requirements) then
    Except.error "Not meeting the stat requirement."
  else if ¬ (equipment.eq_type.can_equip c) then
    Except.error ("Cannot equip more [" ++ equipment.eq_type.shortcode ++ "]")
  else
    Except.ok { c with equipment := c.equipment ++ [equipment] }

/-- `Character::pre_turn` (impl Actor): regenerate HP/MP/AP up to the derived
maxima. -/
def Character.pre_turn (c : Character) : Character :=
  let stats := c.calculate_game_stats
  { c with
    hp := min (c.hp + stats.hrg) stats.mhp
    mp := min (c.mp + stats.mrg) stats.mmp
    ap := min (c.ap + stats.tap) stats.map }

/-- `Character::post_turn` (impl Actor): decrement the remaining-turn count
of every timed effect, then retain exactly those with a positive count.
`cancel_self` is never consulted (nothing in the source calls it). -/
def Character.post_turn (c : Character) : Character :=
  let decremented := c.timed_effects.map (fun p => (p.1, p.2 - 1))
  { c with timed_effects := decremented.filter (fun p => decide (0 < p.2)) }

/-- `Character::apply_damage` (impl Actor): defense by damage type (ZAP uses
the truncating `i64` division `mdf / 2`), floored at zero, applied to HP for
PHY/MAG/ULT and to MP for ZAP.  The loop over effects in the source has an
empty body (its call is commented out). -/
def Character.apply_damage (c : Character) (damage : Damage) : Character :=
  let effective_damage := damage.amount
  let gamestats := c.calculate_game_stats
  let defense_adjust :=
    match damage.dmg_type with
    | .PHY _ => gamestats.pdf
    | .MAG _ => gamestats.mdf
    | .ZAP _ => Int.tdiv gamestats.mdf 2
    | .ULT => 0
  let effective_damage := max (effective_damage - defense_adjust) 0
  match damage.dmg_type with
  | .PHY _ | .MAG _ | .ULT => { c with hp := c.hp - effective_damage }
  | .ZAP _ => { c with mp := c.mp - effective_damage }

/-- `Character::apply_directly` (impl Actor), exactly as written in the
source: HP and VIT are **incremented** by the value (`+=`), while MP and AP
are **assigned** the value (`=`). -/
def Character.apply_directly (c : Character) (val : CharUnit) : Character :=
  match val with
  | .HP v => { c with hp := c.hp + v }
  | .MP v => { c with mp := v }
  | .AP v => { c with ap := v }
  | .VIT v => { c with vit := c.vit + v }

/-- `Character::apply_timed_effect` (impl Actor). -/
def Character.apply_timed_effect (c : Character) (effect : Effect) (effect_duration : Int) : Character :=
  { c with timed_effects := c.timed_effects ++ [(effect, effect_duration)] }

/-!
## Actions and the action stack (src/combat.rs)
-/

/-- `enum EntityPointer` (src/combat.rs). -/
inductive EntityPointer where
  | Character (names : List String)
  | Action (i : Nat)
  | Effect (source : EntityPointer) (name : String)
  | Environment

/-- `enum ActionEffect` (src/combat.rs). -/
inductive ActionEffect where
  | Attack (d : Damage)
  | Heal (u : CharUnit)
  | GiveTimedEffect (e : Effect) (turns : Int)
  | Cancel
  | Canceled
  | AdjustDamageAbs (d : Int)
  | AdjustDamageMul (f : F64)
  | ChangeTarget (t : EntityPointer)

/-- `struct Action` (src/combat.rs): source, payload, target and the
stack-position reference that is set once the action is pushed. -/
structure Action where
  source : EntityPointer
  effect : ActionEffect
  target : EntityPointer
  stack_target : Option EntityPointer := none

/-- `Action::from_source`: the action starts out without a stack position. -/
def Action.from_source (source : EntityPointer) (effect : ActionEffect)
    (target : EntityPointer) : Action :=
  { source := source, effect := effect, target := target, stack_target := none }

/-- `Action::targets_character`: true iff the target pointer is a character
set containing `name`. -/
def Action.targets_character (a : Action) (name : String) : Bool :=
  match a.target with
  | .Character chars => chars.contains name
  | _ => false

/-- `Action::set_stack_location`. -/
def Action.set_stack_location (a : Action) (target : EntityPointer) : Action :=
  { a with stack_target := some target }

/-- `Action::build_self_target`.  The source panics when the action has not
been added to a stack; the default returned here is a placeholder for that
unreachable panic arm (every action handed to a reaction has been located by
`add_action` first). -/
def Action.build_self_target (a : Action) : EntityPointer :=
  a.stack_target.getD (EntityPointer.Action 0)

/-- `Character::as_target` (src/characters.rs). -/
def Character.as_target (c : Character) : EntityPointer :=
  EntityPointer.Character [c.name]

/-- `ActionEffect::apply_to_character`: attacks apply damage, heals apply
directly, everything else does nothing (including `GiveTimedEffect`, whose
arm in the source is `()`). -/
def ActionEffect.apply_to_character (self : ActionEffect) (character : Character) : Character :=
  match self with
  | .Attack d => character.apply_damage d
  | .Heal v => character.apply_directly v
  | _ => character

/-- `ActionEffect::apply_to_action`: `Cancel` rewrites the payload to
`Canceled`; the damage adjustments rewrite a wrapped `Attack` (additively,
or multiplicatively with `(da as f64 * f).floor() as i64`); `ChangeTarget`
rewrites the target pointer; all other payloads do nothing. -/
def ActionEffect.apply_to_action (self : ActionEffect) (action : Action) : Action :=
  match self with
  | .Cancel => { action with effect := ActionEffect.Canceled }
  | .AdjustDamageAbs d =>
    match action.effect with
    | .Attack dmg => { action with effect := ActionEffect.Attack ⟨dmg.dmg_type, dmg.amount + d⟩ }
    | _ => action
  | .AdjustDamageMul f =>
    match action.effect with
    | .Attack dmg =>
      { action with
          effect := ActionEffect.Attack ⟨dmg.dmg_type, (F64.mul (F64.ofInt dmg.amount) f).floorToInt⟩ }
    | _ => action
  | .ChangeTarget t => { action with target := t }
  | _ => action

/-- The world context seen by `ActionStack::build`
(`WorldContext::request_reactions`), abstracted as an oracle over an
explicit state `σ`: the state threading models the `&mut dyn WorldContext`
through which reacting characters pay their resource costs. -/
structure ReactionOracle (σ : Type) where
  request_reactions : σ → Action → List Action × σ

/-- `ActionStack::add_action` / `ActionStack::build` (src/combat.rs), with
the stack as a list whose last element is the top.  For each action in turn:
record its stack location (`EntityPointer::Action(stack.len())`), solicit
reactions, push it, then recursively add every reaction before the remaining
sibling actions.  `fuel` bounds the recursion (the source recursion is
unbounded); with fuel exhausted remaining actions are dropped, which no
theorem below exercises — every theorem supplies sufficient fuel. -/
def ActionStack.buildAux {σ : Type} (O : ReactionOracle σ) :
    Nat → List Action → σ → List Action → List Action × σ
  | _, stack, s, [] => (stack, s)
  | 0, stack, s, _ :: _ => (stack, s)
  | fuel + 1, stack, s, action :: rest =>
    let located := action.set_stack_location (EntityPointer.Action stack.length)
    let step := O.request_reactions s located
    let inner := ActionStack.buildAux O fuel (stack ++ [located]) step.2 step.1
    ActionStack.buildAux O fuel inner.1 inner.2 rest

/-- `ActionStack::build`: starting from the empty stack, add all initiating
actions. -/
def ActionStack.build {σ : Type} (O : ReactionOracle σ) (fuel : Nat)
    (actions : List Action) (s : σ) : List Action × σ :=
  ActionStack.buildAux O fuel [] s actions

/-- The pre-resolution check of `ActionStack::resolve`: apply, in order,
every pending action-targeting action whose recorded index equals the
current stack index. -/
def ActionStack.applyTargeting (targeting : List (Nat × Action)) (idx : Nat)
    (action : Action) : Action :=
  (targeting.filter (fun p => p.1 == idx)).foldl
    (fun acc p => p.2.effect.apply_to_action acc) action

/-- The loop of `ActionStack::resolve`, popping from the reversed stack
(head = top).  Each popped action is first mutated by the pending
action-targeting side list, then dispatched: character-targeting actions are
enacted on the roster (`resolve_on_chars`) at that point, action-targeting
actions are appended to the side list.  The returned list is the sequence of
popped actions, post-mutation, in the order they are enacted on the world.
The tracked stack index decrements after each pop, floored at zero. -/
def ActionStack.resolveAux : Nat → List (Nat × Action) → List Action → List Action
  | _, _, [] => []
  | idx, targeting, action :: rest =>
    let mutated := ActionStack.applyTargeting targeting idx action
    let targeting1 :=
      match mutated.target with
      | .Action i => targeting ++ [(i, mutated)]
      | _ => targeting
    mutated :: ActionStack.resolveAux (if idx ≠ 0 then idx - 1 else idx) targeting1 rest

/-- `ActionStack::resolve` (src/combat.rs): consume the stack LIFO, starting
the index counter at `stack.len() - 1`. -/
def ActionStack.resolve (stack : List Action) : List Action :=
  ActionStack.resolveAux (stack.length - 1) [] stack.reverse


/-!
## Counter (src/mov.rs)
-/

/-- `Counter::relevant_for` (src/mov.rs): ULT damage is unblockable; for a
PHY/MAG/ZAP filter an empty subtype string matches the whole category and a
non-empty one requires exact subtype equality; a `ULT` filter is a generic
counter matching any (non-ULT) damage. -/
def Counter.relevant_for (self : Counter) (incoming : DamageType) : Bool :=
  if incoming.isULT then false
  else
    match self.damage_type with
    | .PHY s =>
      if s = "" then incoming.isPHY
      else
        match incoming with
        | .PHY s2 => s == s2
        | _ => false
    | .MAG s =>
      if s = "" then incoming.isMAG
      else
        match incoming with
        | .MAG s2 => s == s2
        | _ => false
    | .ZAP s =>
      if s = "" then incoming.isZAP
      else
        match incoming with
        | .ZAP s2 => s == s2
        | _ => false
    | .ULT => true

/-- `Counter::mp_cost` (impl Move for Counter, src/mov.rs): every f64 step
(`0.7 - incoming`, `* 10`, the `as i64` cast, and likewise with `0.3` and
`15`) is modelled exactly. -/
def Counter.mp_cost (self : Counter) : Int :=
  let total_cost : Int := 0
  let total_cost :=
    if F64.blt self.incoming_factor f64_0_7 then
      total_cost + (F64.mul (F64.sub f64_0_7 self.incoming_factor) (F64.ofInt 10)).truncToInt
    else total_cost
  let total_cost :=
    if F64.blt f64_0_3 self.outgoing_factor then
      total_cost + (F64.mul (F64.sub self.outgoing_factor f64_0_3) (F64.ofInt 15)).truncToInt
    else total_cost
  total_cost

/-- `Counter::ap_cost` (impl Reaction for Counter). -/
def Counter.ap_cost (_self : Counter) : Int := 3

/-- `Counter::react` (impl Reaction for Counter, src/mov.rs): fires only
when the action targets the reacting character directly, its payload is an
`Attack`, and the damage type passes `relevant_for`; then it produces the
damage adjustment (unless the incoming factor is `1`) followed by the
counter-attack of `(outgoing * damage as f64) as i64` toward the original
source (unless the outgoing factor is `0`). -/
def Counter.react (self : Counter) (character : Character) (action : Action) :
    Option (List Action) :=
  if action.targets_character character.name then
    match action.effect with
    | .Attack dmg =>
      if self.relevant_for dmg.dmg_type then
        let res1 :=
          if F64.beq self.incoming_factor f64_one then []
          else [Action.from_source character.as_target
            (ActionEffect.AdjustDamageMul self.incoming_factor) action.build_self_target]
        let res2 :=
          if F64.beq self.outgoing_factor (F64.ofInt 0) then []
          else [Action.from_source character.as_target
            (ActionEffect.Attack ⟨dmg.dmg_type,
              (F64.mul self.outgoing_factor (F64.ofInt dmg.amount)).truncToInt⟩)
            action.source]
        some (res1 ++ res2)
      else none
    | _ => none
  else none

/-- Modelled from the spec (§4.4): `MP cost:
floor(10 x max(0, 0.7 - incoming)) + floor(15 x max(0, outgoing - 0.3))`,
in exact rational arithmetic. -/
def spec_counter_mp_cost (incoming outgoing : ℚ) : Int :=
  Int.floor (10 * max 0 (7 / 10 - incoming)) + Int.floor (15 * max 0 (outgoing - 3 / 10))

/-!
## Turn order (src/combat.rs)
-/

/-- The sort relation of `Combat::build_turn_order`: `sort_by_key` on the
mobility component of the `(name, mobility)` pairs. -/
def mobilityLe (a b : String × Int) : Prop := a.2 ≤ b.2

instance : DecidableRel mobilityLe := fun a b => inferInstanceAs (Decidable (a.2 ≤ b.2))

instance : IsTotal (String × Int) mobilityLe := ⟨fun a b => Int.le_total a.2 b.2⟩

instance : IsTrans (String × Int) mobilityLe := ⟨fun _ _ _ => Int.le_trans⟩

/-- The `(name, current mobility)` list built by `Combat::build_turn_order`
before sorting. -/
def Combat.char_list (participants : List Character) : List (String × Int) :=
  participants.map (fun x => (x.name, x.calculate_current_stats.mobility))

/-- The sorted `(name, mobility)` list of `Combat::build_turn_order`.  Rust's
`sort_by_key` is a stable ascending sort, which insertion sort (inserting
before the first element that is not strictly smaller) implements. -/
def Combat.turn_keyed (participants : List Character) : List (String × Int) :=
  List.insertionSort mobilityLe (Combat.char_list participants)

/-- `Combat::build_turn_order`: the participant names in ascending order of
current mobility. -/
def Combat.build_turn_order (participants : List Character) : List String :=
  (Combat.turn_keyed participants).map Prod.fst

/-- The order in which `Combat::request_reactions` (src/combat.rs, lines
106-123) solicits reactions: the turn order, reversed, is iterated front to
back. -/
def Combat.reaction_solicitation_order (participants : List Character) : List String :=
  (Combat.build_turn_order participants).reverse

/-!
## Concrete instances used by the witnesses and counterexamples below
-/

/-- A stat vector with a negative grit, making the `max_ap` stat factor
negative. -/
def c3_bad_stats : Stats := ⟨0, 0, -3, 0, 0, 0⟩

/-- The all-nines stat vector of the spec's end-to-end example. -/
def c3_nines : Stats := ⟨9, 9, 9, 9, 9, 9⟩

/-- A character whose only nonzero current stat is DEX = 5. -/
def c4_char : Character := Character.new "Dexter" none ⟨5, 0, 0, 0, 0, 0⟩

/-- A ring requiring STR 3 — a requirement `c4_char` does not meet. -/
def c4_item : Equipment :=
  { name := "Strength Ring"
    eq_type := EquipmentType.Ring
    stat_requirements := ⟨0, 3, 0, 0, 0, 0⟩ }

/-- The repository's test character stats (src/characters.rs tests). -/
def test_stats : Stats := ⟨4, 3, 6, 2, 6, 5⟩

/-- A concrete character used in several witnesses. -/
def c7_char : Character := Character.new "Medic" none test_stats

/-- A hypothetical effect whose cancel predicate always fires (the `Effect`
trait is public and open; no implementation in the repository overrides
`cancel_self`). -/
def cancelingEffect : Effect := { cancel_self := true }

/-- A character carrying `cancelingEffect` with 3 turns remaining. -/
def c8_char : Character :=
  { Character.new "Hexed" none test_stats with timed_effects := [(cancelingEffect, 3)] }

/-- `Counter(PHY(""), 0.5, 0.5)`. -/
def counter_phy_any : Counter := ⟨DamageType.PHY "", f64_half, f64_half⟩

/-- `Counter(ULT, 0.5, 0.5)`. -/
def counter_ult : Counter := ⟨DamageType.ULT, f64_half, f64_half⟩

/-- The defender the counter examples use. -/
def c6_victim : Character := Character.new "Guard" none test_stats

/-- A PHY("Slash") attack on `c6_victim`, already located on a stack. -/
def c6_slash_attack : Action :=
  (Action.from_source (EntityPointer.Character ["Raider"])
      (ActionEffect.Attack ⟨DamageType.PHY "Slash", 40⟩)
      (EntityPointer.Character ["Guard"])).set_stack_location (EntityPointer.Action 0)

/-- A MAG("Fire") attack on `c6_victim`, already located on a stack. -/
def c6_fire_attack : Action :=
  (Action.from_source (EntityPointer.Character ["Raider"])
      (ActionEffect.Attack ⟨DamageType.MAG "Fire", 40⟩)
      (EntityPointer.Character ["Guard"])).set_stack_location (EntityPointer.Action 0)

/-- An ULT attack on `c6_victim`, already located on a stack. -/
def c6_ult_attack : Action :=
  (Action.from_source (EntityPointer.Character ["Raider"])
      (ActionEffect.Attack ⟨DamageType.ULT, 40⟩)
      (EntityPointer.Character ["Guard"])).set_stack_location (EntityPointer.Action 0)

/-- Roster member with current mobility 4 (DEX+INT = 4, `floor(4.8) = 4`). -/
def c2_slow : Character := Character.new "Slow" none ⟨4, 0, 0, 0, 0, 0⟩

/-- Roster member with current mobility 10 (DEX+INT = 9, `floor(10.8) = 10`). -/
def c2_mid : Character := Character.new "Mid" none ⟨9, 0, 0, 0, 0, 0⟩

/-- Roster member with current mobility 15 (DEX+INT = 13, `floor(15.6) = 15`). -/
def c2_fast : Character := Character.new "Fast" none ⟨13, 0, 0, 0, 0, 0⟩

/-- A three-member roster, least mobile first. -/
def c2_roster : List Character := [c2_slow, c2_mid, c2_fast]

/-- Initiating action of the LIFO witness: P1 strikes P2. -/
def c1_actionA : Action :=
  Action.from_source (EntityPointer.Character ["P1"])
    (ActionEffect.Attack ⟨DamageType.PHY "Strike", 12⟩)
    (EntityPointer.Character ["P2"])

/-- First reaction of the LIFO witness: P2 strikes back at P1. -/
def c1_actionB : Action :=
  Action.from_source (EntityPointer.Character ["P2"])
    (ActionEffect.Attack ⟨DamageType.PHY "Strike", 6⟩)
    (EntityPointer.Character ["P1"])

/-- Second reaction of the LIFO witness: P1 strikes back at P2. -/
def c1_actionC : Action :=
  Action.from_source (EntityPointer.Character ["P1"])
    (ActionEffect.Attack ⟨DamageType.PHY "Strike", 3⟩)
    (EntityPointer.Character ["P2"])

/-- A world-context oracle that answers the first solicitation with
`c1_actionB`, the second with `c1_actionC`, and later ones with no
reaction; the state counts the solicitations made so far. -/
def c1_oracle : ReactionOracle Nat :=
  ⟨fun s _ => (if s = 0 then [c1_actionB] else if s = 1 then [c1_actionC] else [], s + 1)⟩

/-!
## Theorems

First, golden tests of the soft-float kit against independently computed
IEEE-754 binary64 results.
-/

example : F64.sub f64_0_7 f64_half = ⟨7205759403792792, -55⟩ := by decide
example : (F64.mul (F64.sub f64_0_7 f64_half) (F64.ofInt 10)).truncToInt = 1 := by decide
example : (F64.mul (F64.sub f64_half f64_0_3) (F64.ofInt 15)).truncToInt = 3 := by decide
example : (F64.mul (F64.ofInt (-3)) f64_0_2).truncToInt = 0 := by decide
example : (F64.mul (F64.ofInt 25) f64_0_2).truncToInt = 5 := by decide
example : (F64.mul (F64.ofInt 9) f64_1_2).floorToInt = 10 := by decide
example : (F64.mul (F64.ofInt 13) f64_1_2).floorToInt = 15 := by decide
example : F64.toRat f64_half = 1 / 2 := by norm_num [F64.toRat, f64_half]
example : F64.toRat f64_one = 1 := by norm_num [F64.toRat, f64_one]

/-- On the range of stat factors reachable from base stats in `[0, 50]`,
the `max_ap` pipeline `(x as f64 * 0.2) as i64` agrees with `floor (x / 5)`. -/
theorem max_ap_pipeline_range :
    ∀ k : Fin 351,
      (F64.mul (F64.ofInt ((k : Nat) : Int)) f64_0_2).truncToInt = Int.fdiv ((k : Nat) : Int) 5 := by
  decide

/-- On the range of stat factors reachable from base stats in `[0, 50]`,
the `action_points` pipeline `(x as f64 * 0.05).floor() as i64` agrees with
`floor (x / 20)`. -/
theorem turn_ap_pipeline_range :
    ∀ k : Fin 301,
      (F64.mul (F64.ofInt ((k : Nat) : Int)) f64_0_05).floorToInt = Int.fdiv ((k : Nat) : Int) 20 := by
  decide

/-- C3 (amended): for every base-stat vector with components in `[0, 50]`,
the derived stats equal the spec formulas: `maxHP = 100 + 12*((GRT+WIL)*2 +
STR+CHA)`, `maxMP = 2*((INT+CHA)*2 + WIL+DEX)`, `maxAP =
floor(0.2*((DEX+INT+WIL)*2 + GRT))` and `AP per turn = 1 +
floor(0.05*((DEX+INT)*2 + GRT+WIL))`.  (For stat vectors whose
`(DEX+INT+WIL)*2 + GRT` is negative the code truncates toward zero where the
claim floors, see the counterexample.) -/
theorem stat_derivation_formulas (s : Stats)
    (hdex : 0 ≤ s.dex ∧ s.dex ≤ 50) (hstr : 0 ≤ s.str ∧ s.str ≤ 50)
    (hgrt : 0 ≤ s.grt ∧ s.grt ≤ 50) (hwil : 0 ≤ s.wil ∧ s.wil ≤ 50)
    (hcha : 0 ≤ s.cha ∧ s.cha ≤ 50) (hint : 0 ≤ s.int ∧ s.int ≤ 50) :
    Stats.max_hp s = spec_max_hp s ∧ Stats.max_mp s = spec_max_mp s
      ∧ Stats.max_ap s = spec_max_ap s ∧ Stats.action_points s = spec_turn_ap s := by
  refine ⟨?_, ?_, ?_, ?_⟩
  · unfold Stats.max_hp spec_max_hp; ring
  · unfold Stats.max_mp spec_max_mp; ring
  · unfold Stats.max_ap spec_max_ap
    have hx0 : 0 ≤ (s.dex + s.int + s.wil) * 2 + s.grt := by omega
    have hk := max_ap_pipeline_range ⟨((s.dex + s.int + s.wil) * 2 + s.grt).toNat, by omega⟩
    simpa [Int.toNat_of_nonneg hx0] using hk
  · unfold Stats.action_points spec_turn_ap
    have hx0 : 0 ≤ (s.dex + s.int) * 2 + s.grt + s.wil := by omega
    have hk := turn_ap_pipeline_range ⟨((s.dex + s.int) * 2 + s.grt + s.wil).toNat, by omega⟩
    simpa [Int.toNat_of_nonneg hx0] using hk

/-- Witness for `stat_derivation_formulas` at the all-nines stat vector. -/
theorem stat_derivation_formulas_witness :
    Stats.max_hp c3_nines = spec_max_hp c3_nines ∧ Stats.max_mp c3_nines = spec_max_mp c3_nines
      ∧ Stats.max_ap c3_nines = spec_max_ap c3_nines
      ∧ Stats.action_points c3_nines = spec_turn_ap c3_nines :=
  stat_derivation_formulas c3_nines (by decide) (by decide) (by decide) (by decide)
    (by decide) (by decide)

/-- C3 counterexample: at `(DEX,STR,GRT,WIL,CHA,INT) = (0,0,-3,0,0,0)` the
stat factor of `max_ap` is `-3`; the code computes `(-3 as f64 * 0.2) as i64
= 0` (truncation toward zero), while the claimed formula
`floor(0.2 * -3) = -1`. -/
theorem max_ap_floor_counterexample :
    Stats.max_ap c3_bad_stats = 0 ∧ spec_max_ap c3_bad_stats = -1
      ∧ Stats.max_ap c3_bad_stats ≠ spec_max_ap c3_bad_stats := by
  refine ⟨by decide, by decide, by decide⟩

/-- C5: `apply_damage` subtracts the defense matching the damage type —
physical defense for PHY, magical for MAG, the (truncated) half of the
magical defense for ZAP, nothing for ULT — floors the result at zero, and
subtracts the effective damage from HP for PHY/MAG/ULT and from MP for ZAP;
no other resource or field changes. -/
theorem apply_damage_defense_application (c : Character) (dt : DamageType) (n : Int) :
    (match dt with
      | .PHY _ =>
        (c.apply_damage ⟨dt, n⟩).hp = c.hp - max (n - c.calculate_game_stats.pdf) 0
          ∧ (c.apply_damage ⟨dt, n⟩).mp = c.mp
      | .MAG _ =>
        (c.apply_damage ⟨dt, n⟩).hp = c.hp - max (n - c.calculate_game_stats.mdf) 0
          ∧ (c.apply_damage ⟨dt, n⟩).mp = c.mp
      | .ZAP _ =>
        (c.apply_damage ⟨dt, n⟩).mp = c.mp - max (n - Int.tdiv c.calculate_game_stats.mdf 2) 0
          ∧ (c.apply_damage ⟨dt, n⟩).hp = c.hp
      | .ULT =>
        (c.apply_damage ⟨dt, n⟩).hp = c.hp - max n 0
          ∧ (c.apply_damage ⟨dt, n⟩).mp = c.mp)
    ∧ (c.apply_damage ⟨dt, n⟩).ap = c.ap
    ∧ (c.apply_damage ⟨dt, n⟩).vit = c.vit
    ∧ (c.apply_damage ⟨dt, n⟩).equipment = c.equipment
    ∧ (c.apply_damage ⟨dt, n⟩).timed_effects = c.timed_effects := by
  cases dt <;> simp [Character.apply_damage]

/-- C7 (amended): `apply_directly` bypasses defenses and applies the raw
value, but only HP and VIT receive it as a signed delta; MP and AP are
assigned the value itself. -/
theorem apply_directly_semantics (c : Character) (v : Int) :
    ((c.apply_directly (CharUnit.HP v)).hp = c.hp + v
        ∧ (c.apply_directly (CharUnit.HP v)).mp = c.mp)
      ∧ ((c.apply_directly (CharUnit.MP v)).mp = v
        ∧ (c.apply_directly (CharUnit.MP v)).hp = c.hp)
      ∧ ((c.apply_directly (CharUnit.AP v)).ap = v
        ∧ (c.apply_directly (CharUnit.AP v)).hp = c.hp)
      ∧ ((c.apply_directly (CharUnit.VIT v)).vit = c.vit + v
        ∧ (c.apply_directly (CharUnit.VIT v)).hp = c.hp) := by
  simp [Character.apply_directly]

/-- C7 counterexample: `c7_char` has 56 MP; `apply_directly(MP(-10))` sets
MP to `-10` instead of reducing it by 10 to 46 as the claim (raw signed
delta for every `CharUnit`) requires. -/
theorem apply_directly_mp_counterexample :
    c7_char.mp = 56 ∧ (c7_char.apply_directly (CharUnit.MP (-10))).mp = -10
      ∧ (c7_char.apply_directly (CharUnit.MP (-10))).mp ≠ c7_char.mp + (-10) := by
  refine ⟨by decide, by decide, by decide⟩

/-- C8: `post_turn` decrements every timed effect's remaining-turn counter
but never consults `cancel_self`: `c8_char` carries an effect whose cancel
predicate fires, with 3 turns remaining, and after `post_turn` the effect is
still there (with 2 turns remaining) although the claim says it is removed. -/
theorem post_turn_ignores_cancel_self :
    (c8_char.timed_effects.map fun p => (p.1.cancel_self, p.2)) = [(true, 3)]
      ∧ ((c8_char.post_turn).timed_effects.map fun p => (p.1.cancel_self, p.2)) = [(true, 2)] := by
  exact ⟨rfl, rfl⟩

/-- C4: `equip` succeeds on a character that meets only one component of the
item's requirement vector: `c4_char` has `(DEX,STR,...) = (5,0,0,0,0,0)` and
`c4_item` requires STR 3, yet `equip` returns `Ok` because
`Stats::meets_requirements` joins the six comparisons with `||` (its own doc
comment says all requirements must be met, and the claim requires failure
here). -/
theorem equip_requirement_or_bug :
    (c4_char.equip c4_item).isOk = true
      ∧ spec_meets_requirements (c4_char.calculate_current_stats) c4_item.stat_requirements = false
      ∧ Stats.meets_requirements (c4_char.calculate_current_stats) c4_item.stat_requirements = true := by
  refine ⟨rfl, by decide, by decide⟩

/-- C9 (amended): the MP cost of a Counter is computed in f64 arithmetic
with truncating casts; for `incoming = outgoing = 0.5` the first term is
`((0.7 - 0.5) * 10) as i64 = 1` — the f64 difference `0.7 - 0.5` is
`0.19999999999999996`, so the product `1.9999999999999996` truncates to 1 —
and the second term is `((0.5 - 0.3) * 15) as i64 = 3`, for a total of 4
(for any damage-type filter). -/
theorem counter_mp_cost_half_half (dt : DamageType) :
    (Counter.mk dt f64_half f64_half).mp_cost = 1 + 3 := by
  have h : (Counter.mk dt f64_half f64_half).mp_cost
      = (Counter.mk DamageType.ULT f64_half f64_half).mp_cost := rfl
  rw [h]
  decide

/-- C9 counterexample: the claimed exact formula gives
`floor(10*0.2) + floor(15*0.2) = 2 + 3 = 5` at `(0.5, 0.5)`, but the code
computes 4 (`f64_half` is exactly the rational 1/2 the claim speaks about,
see `F64.toRat` above). -/
theorem counter_mp_cost_counterexample :
    counter_phy_any.mp_cost = 4 ∧ spec_counter_mp_cost (1 / 2) (1 / 2) = 5
      ∧ counter_phy_any.mp_cost ≠ spec_counter_mp_cost (1 / 2) (1 / 2) := by
  have hcode : counter_phy_any.mp_cost = 4 := by decide
  have hspec : spec_counter_mp_cost (1 / 2) (1 / 2) = 5 := by
    unfold spec_counter_mp_cost
    have h1 : (7 / 10 - 1 / 2 : ℚ) = 1 / 5 := by norm_num
    have h2 : (1 / 2 - 3 / 10 : ℚ) = 1 / 5 := by norm_num
    rw [h1, h2]
    have h3 : max (0 : ℚ) (1 / 5) = 1 / 5 := by norm_num
    rw [h3]
    have h4 : (10 : ℚ) * (1 / 5) = ((2 : Int) : ℚ) := by norm_num
    have h5 : (15 : ℚ) * (1 / 5) = ((3 : Int) : ℚ) := by norm_num
    rw [h4, h5, Int.floor_intCast, Int.floor_intCast]
    decide
  exact ⟨hcode, hspec, by rw [hcode, hspec]; decide⟩

/-- C6 (amended): a Counter reaction fires only for Attack actions that
target the reacting character directly and whose damage type passes its
filter; incoming ULT damage is never countered; for a PHY/MAG/ZAP filter an
empty subtype matches the whole category while a non-empty subtype requires
exact equality — `Counter(PHY(""), _)` reacts to incoming PHY damage but not
to MAG damage; and a Counter constructed with the ULT filter is a generic
counter that reacts to every non-ULT attack (rather than never reacting). -/
theorem counter_reaction_filtering :
    (∀ (ctr : Counter) (c : Character) (a : Action) (acts : List Action),
        ctr.react c a = some acts →
          a.targets_character c.name = true
            ∧ ∃ dmg, a.effect = ActionEffect.Attack dmg ∧ ctr.relevant_for dmg.dmg_type = true)
    ∧ (∀ ctr : Counter, ctr.relevant_for DamageType.ULT = false)
    ∧ (∀ (s : String) (i o : F64),
        (Counter.mk (DamageType.PHY "") i o).relevant_for (DamageType.PHY s) = true)
    ∧ (∀ (s : String) (i o : F64),
        (Counter.mk (DamageType.MAG "") i o).relevant_for (DamageType.MAG s) = true)
    ∧ (∀ (s : String) (i o : F64),
        (Counter.mk (DamageType.ZAP "") i o).relevant_for (DamageType.ZAP s) = true)
    ∧ (∀ (f s : String) (i o : F64), f ≠ "" →
        (Counter.mk (DamageType.PHY f) i o).relevant_for (DamageType.PHY s) = (f == s))
    ∧ (∀ (f s : String) (i o : F64), f ≠ "" →
        (Counter.mk (DamageType.MAG f) i o).relevant_for (DamageType.MAG s) = (f == s))
    ∧ (∀ (f s : String) (i o : F64), f ≠ "" →
        (Counter.mk (DamageType.ZAP f) i o).relevant_for (DamageType.ZAP s) = (f == s))
    ∧ (∀ (s : String) (i o : F64),
        (Counter.mk (DamageType.PHY "") i o).relevant_for (DamageType.MAG s) = false)
    ∧ (∀ (i o : F64) (dt : DamageType), dt.isULT = false →
        (Counter.mk DamageType.ULT i o).relevant_for dt = true)
    ∧ (∀ (ctr : Counter) (c : Character) (a : Action) (dmg : Damage),
        a.targets_character c.name = true → a.effect = ActionEffect.Attack dmg →
          ctr.relevant_for dmg.dmg_type = true → (ctr.react c a).isSome = true) := by
  refine ⟨?_, ?_, ?_, ?_, ?_, ?_, ?_, ?_, ?_, ?_, ?_⟩
  · intro ctr c a acts h
    rw [Counter.react] at h
    split at h
    · refine ⟨by assumption, ?_⟩
      split at h
      · next dmg heff =>
        split at h
        · next hrel => exact ⟨dmg, heff, hrel⟩
        · exact absurd h (by simp)
      · exact absurd h (by simp)
    · exact absurd h (by simp)
  · intro ctr
    simp [Counter.relevant_for, DamageType.isULT]
  · intro s i o
    simp [Counter.relevant_for, DamageType.isULT, DamageType.isPHY]
  · intro s i o
    simp [Counter.relevant_for, DamageType.isULT, DamageType.isMAG]
  · intro s i o
    simp [Counter.relevant_for, DamageType.isULT, DamageType.isZAP]
  · intro f s i o hf
    simp [Counter.relevant_for, DamageType.isULT, hf]
  · intro f s i o hf
    simp [Counter.relevant_for, DamageType.isULT, hf]
  · intro f s i o hf
    simp [Counter.relevant_for, DamageType.isULT, hf]
  · intro s i o
    simp [Counter.relevant_for, DamageType.isULT, DamageType.isPHY]
  · intro i o dt hdt
    simp [Counter.relevant_for, hdt]
  · intro ctr c a dmg ht he hrel
    rw [Counter.react, ht, he]
    simp [hrel]

/-- Witness for `counter_reaction_filtering`: `Counter(PHY(""), 0.5, 0.5)`
reacts to the located PHY("Slash") attack on its carrier, and
`relevant_for` rejects ULT damage. -/
theorem counter_reaction_filtering_witness :
    (counter_phy_any.react c6_victim c6_slash_attack).isSome = true
      ∧ counter_phy_any.relevant_for DamageType.ULT = false :=
  ⟨counter_reaction_filtering.2.2.2.2.2.2.2.2.2.2 counter_phy_any c6_victim c6_slash_attack
      ⟨DamageType.PHY "Slash", 40⟩ rfl rfl (by decide),
    counter_reaction_filtering.2.1 counter_phy_any⟩

/-- C6 counterexample: `Counter(ULT, 0.5, 0.5)` — the ULT-filter counter the
claim says never reacts — does react to a PHY("Slash") attack targeting its
carrier (while, consistently with the rest of the claim, `Counter(PHY(""))`
reacts to the PHY attack but not to the MAG or ULT attacks). -/
theorem counter_ult_filter_counterexample :
    (counter_ult.react c6_victim c6_slash_attack).isSome = true
      ∧ (counter_phy_any.react c6_victim c6_slash_attack).isSome = true
      ∧ counter_phy_any.react c6_victim c6_fire_attack = none
      ∧ counter_phy_any.react c6_victim c6_ult_attack = none := by
  exact ⟨by decide, by decide, rfl, rfl⟩

/-- Inserting a pair whose mobility is `m` commutes with filtering on
mobility `m`: every element the insertion passes over has a strictly
smaller mobility. -/
theorem filter_orderedInsert_of_eq (m : Int) (a : String × Int) (h : a.2 = m) :
    ∀ l : List (String × Int),
      (List.orderedInsert mobilityLe a l).filter (fun p => p.2 == m)
        = a :: l.filter (fun p => p.2 == m)
  | [] => by simp [h]
  | b :: l => by
    by_cases hab : mobilityLe a b
    · simp [List.orderedInsert, hab, List.filter_cons, h]
    · have hb : ¬ b.2 = m := by
        have : b.2 < a.2 := lt_of_not_le hab
        omega
      simp [List.orderedInsert, hab, List.filter_cons, hb,
        filter_orderedInsert_of_eq m a h l]

/-- Inserting a pair whose mobility is not `m` leaves the mobility-`m`
filter unchanged. -/
theorem filter_orderedInsert_of_ne (m : Int) (a : String × Int) (h : ¬ a.2 = m) :
    ∀ l : List (String × Int),
      (List.orderedInsert mobilityLe a l).filter (fun p => p.2 == m)
        = l.filter (fun p => p.2 == m)
  | [] => by simp [h]
  | b :: l => by
    by_cases hab : mobilityLe a b
    · simp [List.orderedInsert, hab, List.filter_cons, h]
    · simp [List.orderedInsert, hab, List.filter_cons,
        filter_orderedInsert_of_ne m a h l]

/-- Stability of the mobility sort: sorting commutes with filtering on any
fixed mobility value, i.e. entries with equal mobility keep their relative
order. -/
theorem filter_insertionSort (m : Int) :
    ∀ l : List (String × Int),
      (List.insertionSort mobilityLe l).filter (fun p => p.2 == m)
        = l.filter (fun p => p.2 == m)
  | [] => rfl
  | a :: l => by
    by_cases h : a.2 = m
    · rw [List.insertionSort, filter_orderedInsert_of_eq m a h,
        filter_insertionSort m l]
      simp [List.filter_cons, h]
    · rw [List.insertionSort, filter_orderedInsert_of_ne m a h,
        filter_insertionSort m l]
      simp [List.filter_cons, h]

/-- C10: `build_turn_order` is the name projection of the stably
mobility-sorted `(name, mobility)` list: it is a pure function of the roster
order and the current mobilities (determinism), the keyed list is a
permutation of the roster's keyed list sorted ascending by mobility, and
filtering on any fixed mobility value returns the entries in roster order
(the stable tie-break is roster insertion order). -/
theorem turn_order_stable_sort (participants : List Character) :
    Combat.build_turn_order participants = (Combat.turn_keyed participants).map Prod.fst
      ∧ List.Sorted mobilityLe (Combat.turn_keyed participants)
      ∧ List.Perm (Combat.turn_keyed participants) (Combat.char_list participants)
      ∧ ∀ m : Int, (Combat.turn_keyed participants).filter (fun p => p.2 == m)
          = (Combat.char_list participants).filter (fun p => p.2 == m) :=
  ⟨rfl, List.sorted_insertionSort mobilityLe _, List.perm_insertionSort mobilityLe _,
    fun m => filter_insertionSort m _⟩

/-- C2 (amended): reactions are solicited in reverse turn order, which is
**descending** mobility: the solicitation order is the reversed turn order,
its mobilities are sorted descending (most mobile actor asked first, least
mobile asked last), and every roster actor is solicited (the order is a
permutation of the roster names). -/
theorem reaction_solicitation_descending (participants : List Character) :
    Combat.reaction_solicitation_order participants
        = ((Combat.turn_keyed participants).reverse).map Prod.fst
      ∧ List.Sorted (fun a b : String × Int => b.2 ≤ a.2)
          ((Combat.turn_keyed participants).reverse)
      ∧ List.Perm (Combat.reaction_solicitation_order participants) (participants.map Character.name) := by
  refine ⟨?_, ?_, ?_⟩
  · simp [Combat.reaction_solicitation_order, Combat.build_turn_order, List.map_reverse]
  · rw [List.Sorted, List.pairwise_reverse]
    exact List.sorted_insertionSort mobilityLe _
  · have h1 : List.Perm (Combat.reaction_solicitation_order participants)
        (Combat.build_turn_order participants) := List.reverse_perm _
    have h2 : List.Perm (Combat.build_turn_order participants)
        ((Combat.char_list participants).map Prod.fst) :=
      (List.perm_insertionSort mobilityLe _).map Prod.fst
    have h3 : (Combat.char_list participants).map Prod.fst = participants.map Character.name := by
      simp [Combat.char_list, Function.comp]
    exact (h1.trans h2).trans (h3 ▸ List.Perm.refl _)

/-- C2 counterexample: in the roster `[Slow, Mid, Fast]` with current
mobilities 4, 10 and 15, the reactions are solicited from the **most**
mobile actor first — the solicitation order is `[Fast, Mid, Slow]`, not the
`[Slow, Mid, Fast]` the claim (least mobile asked first, most mobile asked
last) requires. -/
theorem reaction_solicitation_counterexample :
    c2_slow.calculate_current_stats.mobility = 4
      ∧ c2_mid.calculate_current_stats.mobility = 10
      ∧ c2_fast.calculate_current_stats.mobility = 15
      ∧ Combat.reaction_solicitation_order c2_roster = ["Fast", "Mid", "Slow"]
      ∧ Combat.reaction_solicitation_order c2_roster ≠ ["Slow", "Mid", "Fast"] := by
  refine ⟨by decide, by decide, by decide, by decide, by decide⟩

/-- Locating an action on the stack does not change its target. -/
theorem set_stack_location_target (a : Action) (p : EntityPointer) :
    (a.set_stack_location p).target = a.target := rfl

/-- Unfolding lemma for `buildAux` on an empty work list. -/
theorem buildAux_nil {σ : Type} (O : ReactionOracle σ) (fuel : Nat) (stack : List Action)
    (s : σ) : ActionStack.buildAux O fuel stack s [] = (stack, s) := by
  cases fuel <;> rfl

/-- Unfolding lemma for `buildAux` on a work list head, phrased through the
oracle's answer. -/
theorem buildAux_cons {σ : Type} (O : ReactionOracle σ) (fuel : Nat) (stack : List Action)
    (s s' : σ) (action : Action) (rest reactions : List Action)
    (h : O.request_reactions s (action.set_stack_location (EntityPointer.Action stack.length))
      = (reactions, s')) :
    ActionStack.buildAux O (fuel + 1) stack s (action :: rest)
      = (ActionStack.buildAux O fuel
          (ActionStack.buildAux O fuel
            (stack ++ [action.set_stack_location (EntityPointer.Action stack.length)])
            s' reactions).1
          (ActionStack.buildAux O fuel
            (stack ++ [action.set_stack_location (EntityPointer.Action stack.length)])
            s' reactions).2 rest) := by
  conv_lhs => rw [ActionStack.buildAux]
  rw [h]

/-- C1: a stack built from an initiating action `A` that provokes reaction
`B`, which in turn provokes reaction `C` (after which the context is
quiescent), is `[A, B, C]` with stack positions 0, 1, 2 — and resolving it
enacts the actions on the world in LIFO order: `C`, then `B`, then `A`
(all three target characters, so each is applied to the roster at its point
in that sequence, untouched by the action-targeting side list). -/
theorem stack_lifo_resolution {σ : Type} (O : ReactionOracle σ) (fuel : Nat)
    (s0 s1 s2 s3 : σ) (A B C : Action) (nA nB nC : List String)
    (hA : A.target = EntityPointer.Character nA)
    (hB : B.target = EntityPointer.Character nB)
    (hC : C.target = EntityPointer.Character nC)
    (h1 : O.request_reactions s0 (A.set_stack_location (EntityPointer.Action 0)) = ([B], s1))
    (h2 : O.request_reactions s1 (B.set_stack_location (EntityPointer.Action 1)) = ([C], s2))
    (h3 : O.request_reactions s2 (C.set_stack_location (EntityPointer.Action 2)) = ([], s3)) :
    ActionStack.build O (fuel + 3) [A] s0
        = ([A.set_stack_location (EntityPointer.Action 0),
            B.set_stack_location (EntityPointer.Action 1),
            C.set_stack_location (EntityPointer.Action 2)], s3)
      ∧ ActionStack.resolve
          [A.set_stack_location (EntityPointer.Action 0),
            B.set_stack_location (EntityPointer.Action 1),
            C.set_stack_location (EntityPointer.Action 2)]
        = [C.set_stack_location (EntityPointer.Action 2),
            B.set_stack_location (EntityPointer.Action 1),
            A.set_stack_location (EntityPointer.Action 0)] := by
  constructor
  · show ActionStack.buildAux O (fuel + 3) [] s0 [A] = _
    rw [buildAux_cons O (fuel + 2) [] s0 s1 A [] [B] (by simpa using h1)]
    rw [buildAux_cons O (fuel + 1) _ s1 s2 B [] [C] (by simpa using h2)]
    rw [buildAux_cons O fuel _ s2 s3 C [] [] (by simpa using h3)]
    simp [buildAux_nil]
  · rw [ActionStack.resolve]
    simp only [List.length_cons, List.length_nil, List.reverse_cons, List.reverse_nil,
      List.nil_append, List.cons_append, List.append_nil]
    rw [ActionStack.resolveAux, ActionStack.resolveAux, ActionStack.resolveAux,
      ActionStack.resolveAux]
    simp [ActionStack.applyTargeting, set_stack_location_target, hA, hB, hC]

/-- Witness for `stack_lifo_resolution`: the concrete A-provokes-B-provokes-C
chain through `c1_oracle`. -/
theorem stack_lifo_resolution_witness :
    ActionStack.build c1_oracle 3 [c1_actionA] 0
        = ([c1_actionA.set_stack_location (EntityPointer.Action 0),
            c1_actionB.set_stack_location (EntityPointer.Action 1),
            c1_actionC.set_stack_location (EntityPointer.Action 2)], 3)
      ∧ ActionStack.resolve
          [c1_actionA.set_stack_location (EntityPointer.Action 0),
            c1_actionB.set_stack_location (EntityPointer.Action 1),
            c1_actionC.set_stack_location (EntityPointer.Action 2)]
        = [c1_actionC.set_stack_location (EntityPointer.Action 2),
            c1_actionB.set_stack_location (EntityPointer.Action 1),
            c1_actionA.set_stack_location (EntityPointer.Action 0)] :=
  stack_lifo_resolution c1_oracle 0 0 1 2 3 c1_actionA c1_actionB c1_actionC
    ["P2"] ["P1"] ["P2"] rfl rfl rfl rfl rfl rfl

end Tussle
